import Mathlib

/-!
Verification development for the maelstrom distributed-node runtime.

The repository contains two generations of the runtime:

* the legacy generation (`src/message.rs`, `src/echo.rs`, `src/uuid.rs`),
  where `Message.body.payload` is mandatory and `Message::into_reply` takes
  the id to correlate with — embedded below in namespace `Legacy`;
* the service generation (`src/node.rs`, `src/services/broadcast.rs`,
  `src/services/echo.rs`, `src/services/uuid.rs`), whose reworked message
  module (`Message::new`, `into_reply(payload)`, optional payload) is not
  present in the source tree; those parts are modelled from the spec and
  are marked as such — embedded below in namespace `Svc`.

Machine integers (`usize`, `u32`) are modelled as `Nat` (no arithmetic in
the program approaches overflow), `Instant`/`Duration` as milliseconds in
`Nat`, `HashSet<u32>` as `Finset Nat`, `HashSet<String>` iterated for
output as `List String`, and `HashMap` as an association list looked up
with `List.lookup`.  Writing to the output sink is modelled by returning
the list of sent messages in send order.
-/

namespace Legacy

/-- `Body<Payload>` from `src/message.rs`: `msg_id` (`id`), `in_reply_to`
(`reply_id`) and the flattened payload (mandatory in this generation). -/
structure Body (P : Type) where
  id : Option Nat
  reply_id : Option Nat
  payload : P
deriving DecidableEq

/-- `Message<Payload>` from `src/message.rs`. -/
structure Message (P : Type) where
  src : String
  dst : String
  body : Body P
deriving DecidableEq

/-- `Message::into_reply` from `src/message.rs`: swaps `src`/`dst`, bumps
the carried `msg_id` by one (when present) and sets `in_reply_to` to the
argument. -/
def Message.into_reply {P : Type} (m : Message P) (id : Option Nat) : Message P :=
  { src := m.dst, dst := m.src,
    body := { id := m.body.id.map (fun sid => sid + 1),
              reply_id := id,
              payload := m.body.payload } }

/-- `Init` from `src/message.rs`. -/
structure Init where
  node_id : String
  node_ids : List String
deriving DecidableEq

/-- `InitPayload` from `src/message.rs`. -/
inductive InitPayload where
  | init (data : Init)
  | initOk
deriving DecidableEq

/-- `Payload` of the legacy echo service (`src/echo.rs`). -/
inductive EchoPayload where
  | echo (s : String)
  | echoOk (s : String)
deriving DecidableEq

/-- `EchoNode::step` from `src/echo.rs`: on `Echo` the payload is replaced
by `EchoOk` and the message is turned into a reply correlated with the
request's own `msg_id`; `EchoOk` is ignored.  The returned list is what the
step writes to the output sink. -/
def echoStep (input : Message EchoPayload) : List (Message EchoPayload) :=
  match input.body.payload with
  | .echo s =>
      [({ input with
          body := { input.body with payload := EchoPayload.echoOk s } }).into_reply
        input.body.id]
  | .echoOk _ => []

/-- Output of the legacy echo service over a list of inbound messages
(`EchoNode` carries no state that `step` reads). -/
def echoRun (msgs : List (Message EchoPayload)) : List (Message EchoPayload) :=
  (msgs.map echoStep).flatten

/-- The init acknowledgment built inline by `main_loop` in
`src/message.rs`: `src`/`dst` swapped, `id: Some(0)` hard-coded,
`reply_id` equal to the init message's `msg_id`. -/
def initReply (init_msg : Message InitPayload) : Message InitPayload :=
  { src := init_msg.dst, dst := init_msg.src,
    body := { id := some 0, reply_id := init_msg.body.id, payload := .initOk } }

/-- `main_loop` from `src/message.rs`, instantiated at the legacy echo
service, with output lines tagged by which codec wrote them: the first
inbound message must carry an `Init` payload (anything else panics,
modelled as an error); the init acknowledgment is written before any
service output, then every further line is dispatched to `step`. -/
def main_loop_outputs (first : Message InitPayload) (rest : List (Message EchoPayload)) :
    Except Unit (List (Message InitPayload ⊕ Message EchoPayload)) :=
  match first.body.payload with
  | .init _ => .ok (Sum.inl (initReply first) :: (echoRun rest).map Sum.inr)
  | .initOk => .error ()

/-- Structured value of one input line, as produced by the JSON lexer
(which is external to the repository); numbers are the `usize` ids. -/
inductive Json where
  | null
  | bool (b : Bool)
  | num (n : Nat)
  | str (s : String)
  | arr (elems : List Json)
  | obj (fields : List (String × Json))

/-- Field lookup in a decoded JSON object. -/
def jLookup (fields : List (String × Json)) (k : String) : Option Json :=
  fields.lookup k

/-- Decoding of an `Option<usize>` struct field under the derived serde
instance: a missing key or an explicit null is `None`, a number is `Some`,
anything else is a type error. -/
def decodeOptNat (fields : List (String × Json)) (k : String) :
    Except Unit (Option Nat) :=
  match jLookup fields k with
  | none => .ok none
  | some Json.null => .ok none
  | some (Json.num n) => .ok (some n)
  | some _ => .error ()

/-- Decoding of the legacy echo payload under its derived serde instance
(`#[serde(tag = "type", rename_all = "snake_case")]` on a mandatory
flattened field): the `type` discriminator must be the string `echo` or
`echo_ok`, and the `echo` field must be a string; any other discriminator
is an error. -/
def decodeEchoPayload (fields : List (String × Json)) : Except Unit EchoPayload :=
  match jLookup fields "type" with
  | some (Json.str "echo") =>
      match jLookup fields "echo" with
      | some (Json.str s) => .ok (.echo s)
      | _ => .error ()
  | some (Json.str "echo_ok") =>
      match jLookup fields "echo" with
      | some (Json.str s) => .ok (.echoOk s)
      | _ => .error ()
  | _ => .error ()

/-- Decoding of `Body<EchoPayload>`: must be an object; `msg_id` and
`in_reply_to` are optional, the flattened payload is decoded from the same
fields and is mandatory. -/
def decodeBody (j : Json) : Except Unit (Body EchoPayload) :=
  match j with
  | Json.obj fields =>
      match decodeOptNat fields "msg_id", decodeOptNat fields "in_reply_to",
            decodeEchoPayload fields with
      | .ok i, .ok r, .ok p => .ok { id := i, reply_id := r, payload := p }
      | _, _, _ => .error ()
  | _ => .error ()

/-- Decoding of `Message<EchoPayload>`: the line must be an object with
string fields `src` and `dest` and an object field `body`. -/
def decodeMessage (j : Json) : Except Unit (Message EchoPayload) :=
  match j with
  | Json.obj fields =>
      match jLookup fields "src", jLookup fields "dest", jLookup fields "body" with
      | some (Json.str s), some (Json.str d), some b =>
          match decodeBody b with
          | .ok body => .ok { src := s, dst := d, body := body }
          | .error e => .error e
      | _, _, _ => .error ()
  | _ => .error ()

/-- One input line handed to the decoder: `none` stands for a line that is
not a single well-formed structured object (the lexer itself fails). -/
def decodeLine (line : Option Json) : Except Unit (Message EchoPayload) :=
  match line with
  | none => .error ()
  | some j => decodeMessage j

/-- The dispatch loop of `main_loop` after init: each line is decoded,
`?` propagates the first decode failure and the process terminates there;
otherwise the step's outputs are emitted and the loop continues. -/
def echoLoop (lines : List (Option Json)) : Except Unit (List (Message EchoPayload)) :=
  match lines with
  | [] => .ok []
  | l :: rest =>
      match decodeLine l with
      | .error e => .error e
      | .ok m =>
          match echoLoop rest with
          | .error e => .error e
          | .ok outs => .ok (echoStep m ++ outs)

/-- Whether the `type` discriminator in a body object is one the echo
payload decoder recognizes. -/
def recognizedTagB (fields : List (String × Json)) : Bool :=
  match jLookup fields "type" with
  | some (Json.str t) => t == "echo" || t == "echo_ok"
  | _ => false

/-- The framing-error conditions of the claim: the line is not a single
well-formed object, or it is an object missing `src`, `dest` or `body`, or
its body object carries an unrecognized `type` discriminator. -/
def framingBadB (line : Option Json) : Bool :=
  match line with
  | none => true
  | some (Json.obj fields) =>
      (jLookup fields "src").isNone || (jLookup fields "dest").isNone ||
      (jLookup fields "body").isNone ||
      (match jLookup fields "body" with
       | some (Json.obj bf) => !(recognizedTagB bf)
       | _ => false)
  | some _ => true

end Legacy

namespace Svc

/-- Body of a message in the service generation: in `src/services/*.rs` the
payload is taken out with `Option::take`, so the payload field is optional
(a decoded line with no recognizable payload carries `none`). -/
structure Body (P : Type) where
  id : Option Nat
  reply_id : Option Nat
  payload : Option P
deriving DecidableEq

/-- Message envelope of the service generation (`crate::message::Message`
as used by `src/node.rs` and `src/services/*.rs`). -/
structure Message (P : Type) where
  src : String
  dst : String
  body : Body P
deriving DecidableEq

/-- Modelled from the spec: the reworked message module used by the
services is not in the source tree; per spec §2–§3 an outbound envelope is
created fresh with the given source, destination, optional id and payload,
and no correlation (`replyId` absent). Call shape from
`src/services/broadcast.rs`: `Message::new(src, dst, id, payload)`. -/
def Message.new {P : Type} (src dst : String) (id : Option Nat) (p : P) : Message P :=
  { src := src, dst := dst,
    body := { id := id, reply_id := none, payload := some p } }

/-- Modelled from the spec: `buildReply` of the missing message module
(spec §4.1) swaps `src`/`dst` of the request, sets `replyId` to the
request's `id`, and assigns a fresh id from the Identifier Generator,
modelled here as the explicit counter value `fresh` threaded through the
handlers. Call shape from the services: `msg.into_reply(payload)`. -/
def Message.into_reply {P : Type} (m : Message P) (fresh : Nat) (p : P) : Message P :=
  { src := m.dst, dst := m.src,
    body := { id := some fresh, reply_id := m.body.id, payload := some p } }

/-- `GOSSIP_TIME` from `src/services/broadcast.rs`, in milliseconds. -/
def GOSSIP_TIME : Nat := 300

/-- `Payload` of the broadcast service (`src/services/broadcast.rs`),
with the data structs (`ReadData`, `TopologyData`, `BroadcastData`)
inlined into the constructors. -/
inductive Payload where
  | read
  | readOk (messages : Finset Nat)
  | topology (assignment : List (String × List String))
  | topologyOk
  | broadcast (message : Nat)
  | broadcastOk
deriving DecidableEq

/-- `NodeInfo` from `src/node.rs` (`node_id`, `node_ids`). -/
structure NodeInfo where
  id : String
  nodes : List String
deriving DecidableEq

/-- `BroadcastNode` from `src/services/broadcast.rs`: own id, neighbor set
(`topology`), deduplicating store (`seen`), and the gossip grace-period
deadline (`gossip_timer`, an instant in milliseconds). -/
structure BroadcastNode where
  id : String
  topology : List String
  seen : Finset Nat
  gossip_timer : Nat
deriving DecidableEq

/-- `BroadcastNode::from_init`: empty neighbor set (allocated with a
capacity but no elements), empty seen set, gossip deadline one interval
from now. -/
def BroadcastNode.from_init (now : Nat) (init : NodeInfo) : BroadcastNode :=
  { id := init.id, topology := [], seen := ∅,
    gossip_timer := now + GOSSIP_TIME }

/-- `BroadcastNode::gossip`: if the grace period is not over
(`gossip_timer > now`) do nothing; otherwise send a `Read` envelope (with
no id) to every neighbor and re-arm the deadline at `now + GOSSIP_TIME`.
Both `Instant::now()` calls inside the function are modelled as the same
instant `now`. Returns the updated node and the sent messages. -/
def BroadcastNode.gossip (n : BroadcastNode) (now : Nat) :
    BroadcastNode × List (Message Payload) :=
  if now < n.gossip_timer then (n, [])
  else ({ n with gossip_timer := now + GOSSIP_TIME },
        n.topology.map (fun nb => Message.new n.id nb none Payload.read))

/-- The payload dispatch of `BroadcastNode::handle` (the `match` on the
taken-out payload): acknowledgments are ignored, `ReadOk` merges into
`seen`, `Topology` replaces the neighbor set when the assignment keys this
node's id and replies `TopologyOk`, `Read` replies with a snapshot of
`seen`, and `Broadcast` is acknowledged first and forwarded to every
neighbor only when the value is newly inserted. `ctr` is the identifier
generator counter consumed by replies. -/
def BroadcastNode.dispatch (n : BroadcastNode) (ctr : Nat) (msg : Message Payload) :
    BroadcastNode × Nat × List (Message Payload) :=
  match msg.body.payload with
  | none => (n, ctr, [])
  | some Payload.topologyOk => (n, ctr, [])
  | some Payload.broadcastOk => (n, ctr, [])
  | some (Payload.readOk vs) => ({ n with seen := n.seen ∪ vs }, ctr, [])
  | some (Payload.topology a) =>
      ((match a.lookup n.id with
        | some t => { n with topology := t }
        | none => n),
       ctr + 1, [msg.into_reply ctr Payload.topologyOk])
  | some Payload.read =>
      (n, ctr + 1, [msg.into_reply ctr (Payload.readOk n.seen)])
  | some (Payload.broadcast v) =>
      if v ∈ n.seen then (n, ctr + 1, [msg.into_reply ctr Payload.broadcastOk])
      else ({ n with seen := insert v n.seen }, ctr + 1,
            msg.into_reply ctr Payload.broadcastOk ::
              n.topology.map (fun nb => Message.new n.id nb none (Payload.broadcast v)))

/-- `BroadcastNode::handle`: trigger a gossip first, then dispatch on the
payload; the sent messages are the gossip's followed by the dispatch's. -/
def BroadcastNode.handle (n : BroadcastNode) (now ctr : Nat) (msg : Message Payload) :
    BroadcastNode × Nat × List (Message Payload) :=
  let g := n.gossip now
  let d := g.1.dispatch ctr msg
  (d.1, d.2.1, g.2 ++ d.2.2)

/-- Repeated `handle` over a list of (arrival instant, message) pairs,
threading node state and the identifier counter; outputs are discarded. -/
def BroadcastNode.handleSeq : BroadcastNode → Nat → List (Nat × Message Payload) →
    BroadcastNode × Nat
  | n, ctr, [] => (n, ctr)
  | n, ctr, s :: rest =>
      let r := n.handle s.1 ctr s.2
      BroadcastNode.handleSeq r.1 r.2.1 rest

/-- Whether a message carries a `Read` payload. -/
def isReadB (m : Message Payload) : Bool :=
  match m.body.payload with
  | some Payload.read => true
  | _ => false

/-- Whether a message carries a `Broadcast` payload. -/
def isBroadcastB (m : Message Payload) : Bool :=
  match m.body.payload with
  | some (Payload.broadcast _) => true
  | _ => false

/-- Whether a message carries a `BroadcastOk` payload. -/
def isBroadcastOkB (m : Message Payload) : Bool :=
  match m.body.payload with
  | some Payload.broadcastOk => true
  | _ => false

/-- Whether a message carries a `TopologyOk` payload. -/
def isTopologyOkB (m : Message Payload) : Bool :=
  match m.body.payload with
  | some Payload.topologyOk => true
  | _ => false

/-- Whether a message carries a `ReadOk` payload. -/
def isReadOkB (m : Message Payload) : Bool :=
  match m.body.payload with
  | some (Payload.readOk _) => true
  | _ => false

/-- Whether a message carries anything other than a `Topology` payload. -/
def noTopologyB (m : Message Payload) : Bool :=
  match m.body.payload with
  | some (Payload.topology _) => false
  | _ => true

end Svc

namespace Svc

/-! Helper lemmas about `gossip` and `dispatch`, shared by the claim
theorems below. -/

theorem gossip_fst_id (n : BroadcastNode) (now : Nat) :
    (n.gossip now).1.id = n.id := by
  unfold BroadcastNode.gossip; split <;> rfl

theorem gossip_fst_topology (n : BroadcastNode) (now : Nat) :
    (n.gossip now).1.topology = n.topology := by
  unfold BroadcastNode.gossip; split <;> rfl

theorem gossip_fst_seen (n : BroadcastNode) (now : Nat) :
    (n.gossip now).1.seen = n.seen := by
  unfold BroadcastNode.gossip; split <;> rfl

theorem gossip_not_fired {n : BroadcastNode} {now : Nat}
    (h : now < n.gossip_timer) : n.gossip now = (n, []) := by
  unfold BroadcastNode.gossip; rw [if_pos h]

theorem gossip_fired {n : BroadcastNode} {now : Nat}
    (h : n.gossip_timer ≤ now) :
    n.gossip now =
      ({ n with gossip_timer := now + GOSSIP_TIME },
       n.topology.map (fun nb => Message.new n.id nb none Payload.read)) := by
  unfold BroadcastNode.gossip; rw [if_neg (not_lt.mpr h)]

theorem mem_gossip_snd {n : BroadcastNode} {now : Nat} {m : Message Payload}
    (h : m ∈ (n.gossip now).2) :
    m.body.payload = some Payload.read ∧ m.body.id = none := by
  unfold BroadcastNode.gossip at h
  split at h
  · simp at h
  · simp only [List.mem_map] at h
    obtain ⟨nb, _, rfl⟩ := h
    exact ⟨rfl, rfl⟩

theorem dispatch_fst_gossip_timer (n : BroadcastNode) (ctr : Nat)
    (msg : Message Payload) :
    (n.dispatch ctr msg).1.gossip_timer = n.gossip_timer := by
  unfold BroadcastNode.dispatch
  split <;> try rfl
  all_goals split <;> rfl

theorem dispatch_seen_subset (n : BroadcastNode) (ctr : Nat)
    (msg : Message Payload) :
    n.seen ⊆ (n.dispatch ctr msg).1.seen := by
  unfold BroadcastNode.dispatch
  split
  · exact Finset.Subset.refl _
  · exact Finset.Subset.refl _
  · exact Finset.Subset.refl _
  · exact Finset.subset_union_left
  · split <;> exact Finset.Subset.refl _
  · exact Finset.Subset.refl _
  · split
    · exact Finset.Subset.refl _
    · exact Finset.subset_insert _ _

theorem dispatch_none {n : BroadcastNode} {ctr : Nat} {msg : Message Payload}
    (h : msg.body.payload = none) :
    n.dispatch ctr msg = (n, ctr, []) := by
  unfold BroadcastNode.dispatch; rw [h]

theorem dispatch_topologyOk {n : BroadcastNode} {ctr : Nat} {msg : Message Payload}
    (h : msg.body.payload = some Payload.topologyOk) :
    n.dispatch ctr msg = (n, ctr, []) := by
  unfold BroadcastNode.dispatch; rw [h]

theorem dispatch_broadcastOk {n : BroadcastNode} {ctr : Nat} {msg : Message Payload}
    (h : msg.body.payload = some Payload.broadcastOk) :
    n.dispatch ctr msg = (n, ctr, []) := by
  unfold BroadcastNode.dispatch; rw [h]

theorem dispatch_readOk {n : BroadcastNode} {ctr : Nat} {msg : Message Payload}
    {vs : Finset Nat} (h : msg.body.payload = some (Payload.readOk vs)) :
    n.dispatch ctr msg = ({ n with seen := n.seen ∪ vs }, ctr, []) := by
  unfold BroadcastNode.dispatch; rw [h]

theorem dispatch_read {n : BroadcastNode} {ctr : Nat} {msg : Message Payload}
    (h : msg.body.payload = some Payload.read) :
    n.dispatch ctr msg =
      (n, ctr + 1, [msg.into_reply ctr (Payload.readOk n.seen)]) := by
  unfold BroadcastNode.dispatch; rw [h]

theorem dispatch_topology {n : BroadcastNode} {ctr : Nat} {msg : Message Payload}
    {a : List (String × List String)}
    (h : msg.body.payload = some (Payload.topology a)) :
    n.dispatch ctr msg =
      ((match a.lookup n.id with
        | some t => { n with topology := t }
        | none => n),
       ctr + 1, [msg.into_reply ctr Payload.topologyOk]) := by
  unfold BroadcastNode.dispatch; rw [h]

theorem dispatch_broadcast_seen {n : BroadcastNode} {ctr v : Nat}
    {msg : Message Payload}
    (h : msg.body.payload = some (Payload.broadcast v)) (hv : v ∈ n.seen) :
    n.dispatch ctr msg =
      (n, ctr + 1, [msg.into_reply ctr Payload.broadcastOk]) := by
  unfold BroadcastNode.dispatch; rw [h]; exact if_pos hv

theorem dispatch_broadcast_not_seen {n : BroadcastNode} {ctr v : Nat}
    {msg : Message Payload}
    (h : msg.body.payload = some (Payload.broadcast v)) (hv : v ∉ n.seen) :
    n.dispatch ctr msg =
      ({ n with seen := insert v n.seen }, ctr + 1,
       msg.into_reply ctr Payload.broadcastOk ::
         n.topology.map (fun nb => Message.new n.id nb none (Payload.broadcast v))) := by
  unfold BroadcastNode.dispatch; rw [h]; exact if_neg hv

theorem handle_unfold (n : BroadcastNode) (now ctr : Nat) (msg : Message Payload) :
    n.handle now ctr msg =
      (((n.gossip now).1.dispatch ctr msg).1,
       ((n.gossip now).1.dispatch ctr msg).2.1,
       (n.gossip now).2 ++ ((n.gossip now).1.dispatch ctr msg).2.2) := rfl

end Svc

namespace Svc

theorem gossip_snd_of_topology_nil {n : BroadcastNode} {now : Nat}
    (h : n.topology = []) : (n.gossip now).2 = [] := by
  unfold BroadcastNode.gossip
  split
  · rfl
  · rw [h]; rfl

theorem mem_dispatch_not_read {n : BroadcastNode} {ctr : Nat}
    {msg m : Message Payload} (h : m ∈ (n.dispatch ctr msg).2.2) :
    isReadB m = false := by
  unfold BroadcastNode.dispatch at h
  split at h
  · simp at h
  · simp at h
  · simp at h
  · simp at h
  · simp at h; subst h; rfl
  · simp at h; subst h; rfl
  · split at h
    · simp at h; subst h; rfl
    · rcases List.mem_cons.mp h with h | h
      · subst h; rfl
      · simp only [List.mem_map] at h
        obtain ⟨nb, _, rfl⟩ := h
        rfl

theorem mem_dispatch_fire_and_forget {n : BroadcastNode} {ctr : Nat}
    {msg m : Message Payload}
    (h : m ∈ (n.dispatch ctr msg).2.2)
    (hk : isReadB m = true ∨ isBroadcastB m = true) :
    m.body.id = none := by
  unfold BroadcastNode.dispatch at h
  split at h
  · simp at h
  · simp at h
  · simp at h
  · simp at h
  · simp at h; subst h; simp [isReadB, isBroadcastB, Message.into_reply] at hk
  · simp at h; subst h; simp [isReadB, isBroadcastB, Message.into_reply] at hk
  · split at h
    · simp at h; subst h; simp [isReadB, isBroadcastB, Message.into_reply] at hk
    · rcases List.mem_cons.mp h with h | h
      · subst h; simp [isReadB, isBroadcastB, Message.into_reply] at hk
      · simp only [List.mem_map] at h
        obtain ⟨nb, _, rfl⟩ := h
        rfl

theorem handle_fst_topology {n : BroadcastNode} {now ctr : Nat}
    {msg : Message Payload} (h : noTopologyB msg = true) :
    (n.handle now ctr msg).1.topology = n.topology := by
  rw [handle_unfold]
  have hg : (n.gossip now).1.topology = n.topology := gossip_fst_topology n now
  cases hp : msg.body.payload with
  | none => rw [dispatch_none hp]; exact hg
  | some p =>
    cases p with
    | read => rw [dispatch_read hp]; exact hg
    | readOk vs => rw [dispatch_readOk hp]; exact hg
    | topology a =>
        exfalso
        unfold noTopologyB at h
        rw [hp] at h
        exact Bool.noConfusion h
    | topologyOk => rw [dispatch_topologyOk hp]; exact hg
    | broadcast v =>
        by_cases hv : v ∈ (n.gossip now).1.seen
        · rw [dispatch_broadcast_seen hp hv]; exact hg
        · rw [dispatch_broadcast_not_seen hp hv]; exact hg
    | broadcastOk => rw [dispatch_broadcastOk hp]; exact hg

theorem handleSeq_topology (steps : List (Nat × Message Payload)) :
    ∀ (n : BroadcastNode) (ctr : Nat),
      (∀ s ∈ steps, noTopologyB s.2 = true) →
      (BroadcastNode.handleSeq n ctr steps).1.topology = n.topology := by
  induction steps with
  | nil => intro n ctr _; rfl
  | cons s rest ih =>
      intro n ctr hall
      have hr := ih (n.handle s.1 ctr s.2).1 (n.handle s.1 ctr s.2).2.1
        (fun x hx => hall x (List.mem_cons_of_mem s hx))
      calc (BroadcastNode.handleSeq n ctr (s :: rest)).1.topology
          = (BroadcastNode.handleSeq (n.handle s.1 ctr s.2).1
              (n.handle s.1 ctr s.2).2.1 rest).1.topology := rfl
        _ = (n.handle s.1 ctr s.2).1.topology := hr
        _ = n.topology := handle_fst_topology (hall s (List.mem_cons_self s rest))

theorem gossip_countP_zero {n : BroadcastNode} {now : Nat}
    {p : Message Payload → Bool}
    (hp : ∀ m : Message Payload, m.body.payload = some Payload.read → p m = false) :
    (n.gossip now).2.countP p = 0 := by
  apply List.countP_eq_zero.mpr
  intro m hm
  simp [hp m (mem_gossip_snd hm).1]

theorem dispatch_countP_read_zero (n : BroadcastNode) (ctr : Nat)
    (msg : Message Payload) :
    ((n.dispatch ctr msg).2.2).countP isReadB = 0 := by
  apply List.countP_eq_zero.mpr
  intro m hm
  simp [mem_dispatch_not_read hm]

end Svc

/-- The init input line of the init scenario:
`{"src":"c","dest":"n1","body":{"type":"init","msg_id":1,"node_id":"n1","node_ids":["n1","n2"]}}`. -/
def scenarioInitMsg : Legacy.Message Legacy.InitPayload :=
  { src := "c", dst := "n1",
    body := { id := some 1, reply_id := none,
              payload := .init { node_id := "n1", node_ids := ["n1", "n2"] } } }

/-- The output line the runtime actually writes for the init scenario:
`{"src":"n1","dest":"c","body":{"msg_id":0,"in_reply_to":1,"type":"init_ok"}}`. -/
def actualInitReply : Legacy.Message Legacy.InitPayload :=
  { src := "n1", dst := "c",
    body := { id := some 0, reply_id := some 1, payload := .initOk } }

/-- The output line the claim expects for the init scenario (no `msg_id`
field): `{"src":"n1","dest":"c","body":{"type":"init_ok","in_reply_to":1}}`. -/
def claimedInitReply : Legacy.Message Legacy.InitPayload :=
  { src := "n1", dst := "c",
    body := { id := none, reply_id := some 1, payload := .initOk } }

/-- C3: for every request envelope with source A, destination B and
`msg_id` M, the reply built from it by `into_reply` (which every call site
invokes with the request's own `msg_id`) has `src = B`, `dst = A` and
`in_reply_to = M`. -/
theorem into_reply_swaps_and_correlates (P : Type) (m : Legacy.Message P) :
    (m.into_reply m.body.id).src = m.dst ∧
    (m.into_reply m.body.id).dst = m.src ∧
    (m.into_reply m.body.id).body.reply_id = m.body.id :=
  ⟨rfl, rfl, rfl⟩

/-- C8 counterexample: on the init input of the claim, the single line the
runtime writes is the init acknowledgment with `msg_id: 0` included
(hard-coded `id: Some(0)` in `main_loop`), which is a different envelope
from the claimed `{"src":"n1","dest":"c","body":{"type":"init_ok",
"in_reply_to":1}}` that carries no `msg_id`. -/
theorem init_reply_line_discrepancy :
    Legacy.main_loop_outputs scenarioInitMsg [] =
      Except.ok [Sum.inl actualInitReply] ∧
    actualInitReply ≠ claimedInitReply :=
  ⟨rfl, by decide⟩

/-- C8 amended: on the init input of the claim, the runtime produces
exactly one output line, `{"src":"n1","dest":"c","body":{"type":"init_ok",
"in_reply_to":1,"msg_id":0}}`, before any other line is written. -/
theorem init_reply_first_line (rest : List (Legacy.Message Legacy.EchoPayload)) :
    Legacy.main_loop_outputs scenarioInitMsg rest =
      Except.ok (Sum.inl actualInitReply :: (Legacy.echoRun rest).map Sum.inr) := rfl

/-- C4 counterexample: reply ids are not drawn from a process-wide
generator of distinct integers — two successive replies of one process run
both carry `msg_id 6` (each is its request's id plus one) — and the
forwarded `Broadcast` envelope, an outbound message the sender expects no
correlation for, carries no id at all. -/
theorem reply_ids_not_generator_assigned :
    (Legacy.echoRun
        [{ src := "c1", dst := "n1",
           body := { id := some 5, reply_id := none, payload := .echo "a" } },
         { src := "c2", dst := "n1",
           body := { id := some 5, reply_id := none, payload := .echo "b" } }]).map
      (fun m => m.body.id) = [some 6, some 6] ∧
    (Svc.Message.new "n1" "n2" none (Svc.Payload.broadcast 5)).body.id = none ∧
    Svc.Message.new "n1" "n2" none (Svc.Payload.broadcast 5) ∈
      (Svc.BroadcastNode.handle
        { id := "n1", topology := ["n2"], seen := ∅, gossip_timer := 1000 } 0 7
        { src := "c", dst := "n1",
          body := { id := some 1, reply_id := none,
                    payload := some (Svc.Payload.broadcast 5) } }).2.2 := by
  refine ⟨rfl, rfl, ?_⟩
  decide

/-- C4 amended: a reply built by the legacy `into_reply` carries the
request's `msg_id` incremented by one (absent when the request had none),
and the broadcast node's fire-and-forget sends — gossip `Read` requests
and `Broadcast` forwards — carry no `msg_id`. -/
theorem reply_id_increment_and_plain_sends
    (P : Type) (m : Legacy.Message P) (i : Option Nat)
    (n : Svc.BroadcastNode) (now ctr : Nat) (msg out : Svc.Message Svc.Payload)
    (hout : out ∈ (n.handle now ctr msg).2.2)
    (hk : Svc.isReadB out = true ∨ Svc.isBroadcastB out = true) :
    (m.into_reply i).body.id = m.body.id.map (fun s => s + 1) ∧
    out.body.id = none := by
  refine ⟨rfl, ?_⟩
  rw [Svc.handle_unfold] at hout
  have hout2 : out ∈ (n.gossip now).2 ++ ((n.gossip now).1.dispatch ctr msg).2.2 := hout
  rcases List.mem_append.mp hout2 with hg | hd
  · exact (Svc.mem_gossip_snd hg).2
  · exact Svc.mem_dispatch_fire_and_forget hd hk

/-- C4 amended, witness: the broadcast forward sent by a node with one
neighbor is in the handle output, and it carries no `msg_id` while the
legacy reply to a request with `msg_id 5` carries `msg_id 6`. -/
theorem reply_id_increment_and_plain_sends_witness :
    (Legacy.Message.into_reply
        { src := "c1", dst := "n1",
          body := { id := some 5, reply_id := none,
                    payload := Legacy.EchoPayload.echoOk "a" } }
        (none : Option Nat)).body.id =
      (Option.some 5).map (fun s => s + 1) ∧
    (Svc.Message.new "n1" "n2" none (Svc.Payload.broadcast 5)).body.id = none :=
  reply_id_increment_and_plain_sends Legacy.EchoPayload
    { src := "c1", dst := "n1",
      body := { id := some 5, reply_id := none,
                payload := Legacy.EchoPayload.echoOk "a" } }
    none
    { id := "n1", topology := ["n2"], seen := ∅, gossip_timer := 1000 } 0 7
    { src := "c", dst := "n1",
      body := { id := some 1, reply_id := none,
                payload := some (Svc.Payload.broadcast 5) } }
    (Svc.Message.new "n1" "n2" none (Svc.Payload.broadcast 5))
    (by decide) (Or.inr rfl)

namespace Legacy

theorem decodeEchoPayload_unrecognized {bf : List (String × Json)}
    (h : recognizedTagB bf = false) : decodeEchoPayload bf = .error () := by
  unfold recognizedTagB at h
  unfold decodeEchoPayload
  split
  · rename_i heq
    rw [heq] at h
    exact absurd h (by decide)
  · rename_i heq
    rw [heq] at h
    exact absurd h (by decide)
  · rfl

theorem decodeBody_payload_error {bf : List (String × Json)}
    (h : decodeEchoPayload bf = .error ()) :
    decodeBody (Json.obj bf) = .error () := by
  have hm : decodeBody (Json.obj bf) =
      (match decodeOptNat bf "msg_id", decodeOptNat bf "in_reply_to",
             decodeEchoPayload bf with
       | .ok i, .ok r, .ok p => .ok { id := i, reply_id := r, payload := p }
       | _, _, _ => .error ()) := rfl
  rw [hm]
  split
  · rename_i heq1 heq2 heq3
    rw [h] at heq3
    exact Except.noConfusion heq3
  · rfl

end Legacy

/-- C9: decoding an input line fails — and the dispatch loop terminates
with that failure, processing nothing further — whenever the line is not a
single well-formed structured object, is missing `src`, `dest` or `body`,
or the body's `"type"` discriminator is unrecognized for the expected
payload type (here the echo payload, whose decoder accepts exactly the
tags `echo` and `echo_ok`). -/
theorem decode_framing_fatal
    (line : Option Legacy.Json) (rest : List (Option Legacy.Json))
    (h : Legacy.framingBadB line = true) :
    Legacy.decodeLine line = .error () ∧
    Legacy.echoLoop (line :: rest) = .error () := by
  have hd : Legacy.decodeLine line = .error () := by
    cases line with
    | none => rfl
    | some j =>
      cases j with
      | null => rfl
      | bool b => rfl
      | num k => rfl
      | str s => rfl
      | arr xs => rfl
      | obj fields =>
          show Legacy.decodeMessage (Legacy.Json.obj fields) = .error ()
          have hm : Legacy.decodeMessage (Legacy.Json.obj fields) =
              (match Legacy.jLookup fields "src", Legacy.jLookup fields "dest",
                     Legacy.jLookup fields "body" with
               | some (Legacy.Json.str s), some (Legacy.Json.str d), some b =>
                   (match Legacy.decodeBody b with
                    | .ok body => .ok { src := s, dst := d, body := body }
                    | .error e => .error e)
               | _, _, _ => .error ()) := rfl
          rw [hm]
          simp only [Legacy.framingBadB] at h
          split
          · rename_i s d b hs hdd hb
            rw [hs, hdd, hb] at h
            simp only [Option.isNone_some, Bool.false_or] at h
            cases b with
            | obj bf =>
                have htag : Legacy.recognizedTagB bf = false := by
                  simpa using h
                rw [Legacy.decodeBody_payload_error
                  (Legacy.decodeEchoPayload_unrecognized htag)]
            | null => simp at h
            | bool bb => simp at h
            | num k => simp at h
            | str s2 => simp at h
            | arr xs => simp at h
          · rfl
  refine ⟨hd, ?_⟩
  have hl : Legacy.echoLoop (line :: rest) =
      (match Legacy.decodeLine line with
       | .error e => .error e
       | .ok m =>
           (match Legacy.echoLoop rest with
            | .error e => .error e
            | .ok outs => .ok (Legacy.echoStep m ++ outs))) := rfl
  rw [hl, hd]

/-- C9 witness: a line whose body carries the unrecognized discriminator
`flurble` is rejected by the decoder and kills the loop. -/
theorem decode_framing_fatal_witness :
    Legacy.decodeLine (some (Legacy.Json.obj
      [("src", Legacy.Json.str "c"), ("dest", Legacy.Json.str "n1"),
       ("body", Legacy.Json.obj [("type", Legacy.Json.str "flurble")])])) =
        .error () ∧
    Legacy.echoLoop [some (Legacy.Json.obj
      [("src", Legacy.Json.str "c"), ("dest", Legacy.Json.str "n1"),
       ("body", Legacy.Json.obj [("type", Legacy.Json.str "flurble")])])] =
        .error () :=
  decode_framing_fatal
    (some (Legacy.Json.obj
      [("src", Legacy.Json.str "c"), ("dest", Legacy.Json.str "n1"),
       ("body", Legacy.Json.obj [("type", Legacy.Json.str "flurble")])]))
    [] rfl

namespace Svc

theorem isBroadcastOkB_of_read {m : Message Payload}
    (hm : m.body.payload = some Payload.read) : isBroadcastOkB m = false := by
  unfold isBroadcastOkB; rw [hm]

theorem isBroadcastB_of_read {m : Message Payload}
    (hm : m.body.payload = some Payload.read) : isBroadcastB m = false := by
  unfold isBroadcastB; rw [hm]

theorem isTopologyOkB_of_read {m : Message Payload}
    (hm : m.body.payload = some Payload.read) : isTopologyOkB m = false := by
  unfold isTopologyOkB; rw [hm]

theorem isReadOkB_of_read {m : Message Payload}
    (hm : m.body.payload = some Payload.read) : isReadOkB m = false := by
  unfold isReadOkB; rw [hm]

theorem handle_broadcast_seen {n : BroadcastNode} {now ctr v : Nat}
    {msg : Message Payload}
    (h : msg.body.payload = some (Payload.broadcast v)) (hv : v ∈ n.seen) :
    n.handle now ctr msg =
      ((n.gossip now).1, ctr + 1,
       (n.gossip now).2 ++ [msg.into_reply ctr Payload.broadcastOk]) := by
  rw [handle_unfold]
  have hv2 : v ∈ (n.gossip now).1.seen := by rw [gossip_fst_seen]; exact hv
  rw [dispatch_broadcast_seen h hv2]

theorem handle_broadcast_not_seen {n : BroadcastNode} {now ctr v : Nat}
    {msg : Message Payload}
    (h : msg.body.payload = some (Payload.broadcast v)) (hv : v ∉ n.seen) :
    n.handle now ctr msg =
      ({ id := n.id, topology := n.topology, seen := insert v n.seen,
         gossip_timer := (n.gossip now).1.gossip_timer }, ctr + 1,
       (n.gossip now).2 ++
         msg.into_reply ctr Payload.broadcastOk ::
           n.topology.map (fun nb => Message.new n.id nb none (Payload.broadcast v))) := by
  rw [handle_unfold]
  have hv2 : v ∉ (n.gossip now).1.seen := by rw [gossip_fst_seen]; exact hv
  rw [dispatch_broadcast_not_seen h hv2]
  rw [gossip_fst_seen, gossip_fst_topology, gossip_fst_id]

theorem forwards_countP_broadcastOk_zero (tp : List String) (i : String) (v : Nat) :
    (tp.map (fun nb => Message.new i nb none (Payload.broadcast v))).countP
      isBroadcastOkB = 0 := by
  apply List.countP_eq_zero.mpr
  intro m hm
  simp only [List.mem_map] at hm
  obtain ⟨nb, _, rfl⟩ := hm
  simp [isBroadcastOkB, Message.new]

end Svc

/-- C1: handling `Broadcast{v}` always emits exactly one `BroadcastOk`
reply, addressed to the sender; if `v` is new it is inserted into the seen
set and a fresh `Broadcast{v}` envelope is sent to every neighbor; if `v`
was already seen the state is unchanged and nothing is forwarded; and a
second delivery of `Broadcast{v}` leaves the seen set exactly as after the
first and forwards nothing. -/
theorem broadcast_ack_dedup_idempotent
    (n : Svc.BroadcastNode) (now ctr v : Nat) (msg : Svc.Message Svc.Payload)
    (now2 ctr2 : Nat) (msg2 : Svc.Message Svc.Payload)
    (h : msg.body.payload = some (Svc.Payload.broadcast v))
    (h2 : msg2.body.payload = some (Svc.Payload.broadcast v)) :
    (n.handle now ctr msg).2.2.countP Svc.isBroadcastOkB = 1 ∧
    msg.into_reply ctr Svc.Payload.broadcastOk ∈ (n.handle now ctr msg).2.2 ∧
    (msg.into_reply ctr Svc.Payload.broadcastOk).dst = msg.src ∧
    (v ∉ n.seen →
        (n.handle now ctr msg).1.seen = insert v n.seen ∧
        (n.handle now ctr msg).2.2 =
          (n.gossip now).2 ++
            msg.into_reply ctr Svc.Payload.broadcastOk ::
              n.topology.map
                (fun nb => Svc.Message.new n.id nb none (Svc.Payload.broadcast v))) ∧
    (v ∈ n.seen →
        (n.handle now ctr msg).1.seen = n.seen ∧
        (n.handle now ctr msg).2.2.countP Svc.isBroadcastB = 0) ∧
    ((n.handle now ctr msg).1.handle now2 ctr2 msg2).1.seen =
      (n.handle now ctr msg).1.seen ∧
    ((n.handle now ctr msg).1.handle now2 ctr2 msg2).2.2.countP Svc.isBroadcastB = 0 := by
  have hackOk : Svc.isBroadcastOkB (msg.into_reply ctr Svc.Payload.broadcastOk) = true := rfl
  have hackB : Svc.isBroadcastB (msg.into_reply ctr Svc.Payload.broadcastOk) = false := rfl
  have second : ∀ n1 : Svc.BroadcastNode, v ∈ n1.seen →
      (n1.handle now2 ctr2 msg2).1.seen = n1.seen ∧
      (n1.handle now2 ctr2 msg2).2.2.countP Svc.isBroadcastB = 0 := by
    intro n1 hv1
    rw [Svc.handle_broadcast_seen h2 hv1]
    constructor
    · exact Svc.gossip_fst_seen n1 now2
    · show ((n1.gossip now2).2 ++
          [msg2.into_reply ctr2 Svc.Payload.broadcastOk]).countP Svc.isBroadcastB = 0
      rw [List.countP_append,
          Svc.gossip_countP_zero (fun m hm => Svc.isBroadcastB_of_read hm)]
      simp [List.countP_cons, Svc.isBroadcastB, Svc.Message.into_reply]
  by_cases hv : v ∈ n.seen
  · rw [Svc.handle_broadcast_seen h hv]
    refine ⟨?_, ?_, rfl, ?_, ?_, ?_, ?_⟩
    · show ((n.gossip now).2 ++
          [msg.into_reply ctr Svc.Payload.broadcastOk]).countP Svc.isBroadcastOkB = 1
      rw [List.countP_append,
          Svc.gossip_countP_zero (fun m hm => Svc.isBroadcastOkB_of_read hm)]
      simp [List.countP_cons, hackOk]
    · show msg.into_reply ctr Svc.Payload.broadcastOk ∈
        (n.gossip now).2 ++ [msg.into_reply ctr Svc.Payload.broadcastOk]
      exact List.mem_append.mpr (Or.inr (List.mem_singleton.mpr rfl))
    · exact fun hvn => absurd hv hvn
    · intro _
      refine ⟨Svc.gossip_fst_seen n now, ?_⟩
      show ((n.gossip now).2 ++
          [msg.into_reply ctr Svc.Payload.broadcastOk]).countP Svc.isBroadcastB = 0
      rw [List.countP_append,
          Svc.gossip_countP_zero (fun m hm => Svc.isBroadcastB_of_read hm)]
      simp [List.countP_cons, hackB]
    · exact (second (n.gossip now).1 (by rw [Svc.gossip_fst_seen]; exact hv)).1
    · exact (second (n.gossip now).1 (by rw [Svc.gossip_fst_seen]; exact hv)).2
  · rw [Svc.handle_broadcast_not_seen h hv]
    refine ⟨?_, ?_, rfl, ?_, ?_, ?_, ?_⟩
    · show ((n.gossip now).2 ++
          msg.into_reply ctr Svc.Payload.broadcastOk ::
            n.topology.map
              (fun nb => Svc.Message.new n.id nb none (Svc.Payload.broadcast v))).countP
        Svc.isBroadcastOkB = 1
      rw [List.countP_append,
          Svc.gossip_countP_zero (fun m hm => Svc.isBroadcastOkB_of_read hm),
          List.countP_cons, Svc.forwards_countP_broadcastOk_zero, hackOk]
      decide
    · show msg.into_reply ctr Svc.Payload.broadcastOk ∈
        (n.gossip now).2 ++
          msg.into_reply ctr Svc.Payload.broadcastOk ::
            n.topology.map
              (fun nb => Svc.Message.new n.id nb none (Svc.Payload.broadcast v))
      exact List.mem_append.mpr (Or.inr (List.mem_cons_self _ _))
    · exact fun _ => ⟨rfl, rfl⟩
    · exact fun hvin => absurd hvin hv
    · exact (second _ (Finset.mem_insert_self v n.seen)).1
    · exact (second _ (Finset.mem_insert_self v n.seen)).2

/-- Test fixture: a broadcast node with one neighbor, nothing seen, and a
gossip deadline of 1000 ms. -/
def cNode : Svc.BroadcastNode :=
  { id := "n1", topology := ["n2"], seen := ∅, gossip_timer := 1000 }

/-- Test fixture: a broadcast node whose gossip deadline (300 ms) has
already passed at the probe instants used below. -/
def cNodeExpired : Svc.BroadcastNode :=
  { id := "n1", topology := ["n2"], seen := ∅, gossip_timer := 300 }

/-- Test fixture: a `Broadcast{5}` request from client `c`. -/
def cBroadcast5 : Svc.Message Svc.Payload :=
  { src := "c", dst := "n1",
    body := { id := some 1, reply_id := none,
              payload := some (Svc.Payload.broadcast 5) } }

/-- Test fixture: a `Read` request from client `c`. -/
def cRead : Svc.Message Svc.Payload :=
  { src := "c", dst := "n1",
    body := { id := some 2, reply_id := none, payload := some Svc.Payload.read } }

/-- Test fixture: a `ReadOk{values:{3}}` gossip response. -/
def cReadOk : Svc.Message Svc.Payload :=
  { src := "n2", dst := "n1",
    body := { id := none, reply_id := some 2,
              payload := some (Svc.Payload.readOk {3}) } }

/-- Test fixture: a `Topology` assignment giving `n1` the neighbor set
`["n2", "n3"]`. -/
def cTopology : Svc.Message Svc.Payload :=
  { src := "c", dst := "n1",
    body := { id := some 3, reply_id := none,
              payload := some (Svc.Payload.topology [("n1", ["n2", "n3"])]) } }

/-- C1 witness: a concrete node handling `Broadcast{5}` twice. -/
theorem broadcast_ack_dedup_idempotent_witness :
    (cNode.handle 0 7 cBroadcast5).2.2.countP Svc.isBroadcastOkB = 1 ∧
    ((cNode.handle 0 7 cBroadcast5).1.handle 400 9 cBroadcast5).1.seen =
      (cNode.handle 0 7 cBroadcast5).1.seen ∧
    ((cNode.handle 0 7 cBroadcast5).1.handle 400 9 cBroadcast5).2.2.countP
      Svc.isBroadcastB = 0 :=
  ⟨(broadcast_ack_dedup_idempotent cNode 0 7 5 cBroadcast5 400 9 cBroadcast5 rfl rfl).1,
   (broadcast_ack_dedup_idempotent cNode 0 7 5 cBroadcast5 400 9 cBroadcast5 rfl
      rfl).2.2.2.2.2.1,
   (broadcast_ack_dedup_idempotent cNode 0 7 5 cBroadcast5 400 9 cBroadcast5 rfl
      rfl).2.2.2.2.2.2⟩

/-- C2: the anti-entropy check runs at the top of every handle call,
independent of the inbound payload: if the deadline has passed, a `Read`
is sent to every neighbor before any dispatch output and the deadline is
re-armed at `now + 300 ms`; otherwise no `Read` is sent and the deadline
is unchanged. -/
theorem gossip_runs_first
    (n : Svc.BroadcastNode) (now ctr : Nat) (msg : Svc.Message Svc.Payload) :
    (n.gossip_timer ≤ now →
        (n.handle now ctr msg).2.2 =
          n.topology.map (fun nb => Svc.Message.new n.id nb none Svc.Payload.read) ++
            ((n.gossip now).1.dispatch ctr msg).2.2 ∧
        (n.handle now ctr msg).1.gossip_timer = now + Svc.GOSSIP_TIME) ∧
    (now < n.gossip_timer →
        (n.handle now ctr msg).1.gossip_timer = n.gossip_timer ∧
        (n.handle now ctr msg).2.2.countP Svc.isReadB = 0) := by
  constructor
  · intro hfire
    have hg := Svc.gossip_fired hfire
    constructor
    · rw [Svc.handle_unfold, hg]
    · rw [Svc.handle_unfold]
      show ((n.gossip now).1.dispatch ctr msg).1.gossip_timer = now + Svc.GOSSIP_TIME
      rw [Svc.dispatch_fst_gossip_timer, hg]
  · intro hnot
    have hg := Svc.gossip_not_fired hnot
    constructor
    · rw [Svc.handle_unfold]
      show ((n.gossip now).1.dispatch ctr msg).1.gossip_timer = n.gossip_timer
      rw [Svc.dispatch_fst_gossip_timer, hg]
    · rw [Svc.handle_unfold]
      show ((n.gossip now).2 ++
          ((n.gossip now).1.dispatch ctr msg).2.2).countP Svc.isReadB = 0
      rw [hg]
      simpa using Svc.dispatch_countP_read_zero n ctr msg

/-- C2 witness: an expired deadline is re-armed at `now + 300`; an
unexpired one is untouched and no `Read` goes out. -/
theorem gossip_runs_first_witness :
    (cNodeExpired.handle 1000 0 cBroadcast5).1.gossip_timer = 1000 + Svc.GOSSIP_TIME ∧
    (cNode.handle 0 7 cBroadcast5).1.gossip_timer = cNode.gossip_timer ∧
    (cNode.handle 0 7 cBroadcast5).2.2.countP Svc.isReadB = 0 :=
  ⟨((gossip_runs_first cNodeExpired 1000 0 cBroadcast5).1 (by decide)).2,
   ((gossip_runs_first cNode 0 7 cBroadcast5).2 (by decide)).1,
   ((gossip_runs_first cNode 0 7 cBroadcast5).2 (by decide)).2⟩

/-- C5: a `Topology{assignment}` message replaces the neighbor set
wholesale with the set keyed by this node's id when present (left
unchanged when absent), and in both cases exactly one `TopologyOk` reply
goes out. -/
theorem topology_wholesale
    (n : Svc.BroadcastNode) (now ctr : Nat) (a : List (String × List String))
    (msg : Svc.Message Svc.Payload)
    (h : msg.body.payload = some (Svc.Payload.topology a)) :
    (n.handle now ctr msg).2.2 =
      (n.gossip now).2 ++ [msg.into_reply ctr Svc.Payload.topologyOk] ∧
    (n.handle now ctr msg).2.2.countP Svc.isTopologyOkB = 1 ∧
    (∀ t, a.lookup n.id = some t → (n.handle now ctr msg).1.topology = t) ∧
    (a.lookup n.id = none → (n.handle now ctr msg).1.topology = n.topology) := by
  rw [Svc.handle_unfold, Svc.dispatch_topology h, Svc.gossip_fst_id]
  refine ⟨rfl, ?_, ?_, ?_⟩
  · show ((n.gossip now).2 ++
        [msg.into_reply ctr Svc.Payload.topologyOk]).countP Svc.isTopologyOkB = 1
    rw [List.countP_append,
        Svc.gossip_countP_zero (fun m hm => Svc.isTopologyOkB_of_read hm)]
    simp [List.countP_cons]
    rfl
  · intro t ht
    dsimp only
    rw [ht]
  · intro hnone
    dsimp only
    rw [hnone]
    exact Svc.gossip_fst_topology n now

/-- C5 witness: the concrete assignment `{n1: [n2, n3]}` replaces `n1`'s
neighbor set with `[n2, n3]` and one `TopologyOk` is emitted. -/
theorem topology_wholesale_witness :
    (cNode.handle 0 7 cTopology).2.2.countP Svc.isTopologyOkB = 1 ∧
    (cNode.handle 0 7 cTopology).1.topology = ["n2", "n3"] :=
  ⟨(topology_wholesale cNode 0 7 [("n1", ["n2", "n3"])] cTopology rfl).2.1,
   (topology_wholesale cNode 0 7 [("n1", ["n2", "n3"])] cTopology rfl).2.2.1
     ["n2", "n3"] (by decide)⟩

/-- C6: handling `Read` emits exactly one `ReadOk` reply whose values
field is the seen set as of the moment of handling (the reply holds its
own copy of that set — in this pure embedding the reply value is fixed by
the pre-handle seen set and cannot be affected by later state changes) —
and the handling itself leaves the seen set unchanged. -/
theorem read_snapshot
    (n : Svc.BroadcastNode) (now ctr : Nat) (msg : Svc.Message Svc.Payload)
    (h : msg.body.payload = some Svc.Payload.read) :
    (n.handle now ctr msg).2.2 =
      (n.gossip now).2 ++ [msg.into_reply ctr (Svc.Payload.readOk n.seen)] ∧
    (n.handle now ctr msg).2.2.countP Svc.isReadOkB = 1 ∧
    (n.handle now ctr msg).1.seen = n.seen := by
  rw [Svc.handle_unfold, Svc.dispatch_read h, Svc.gossip_fst_seen]
  refine ⟨rfl, ?_, rfl⟩
  show ((n.gossip now).2 ++
      [msg.into_reply ctr (Svc.Payload.readOk n.seen)]).countP Svc.isReadOkB = 1
  rw [List.countP_append,
      Svc.gossip_countP_zero (fun m hm => Svc.isReadOkB_of_read hm)]
  simp [List.countP_cons]
  rfl

/-- C6 witness: a concrete node replies to `Read` with a snapshot of its
seen set and does not change it. -/
theorem read_snapshot_witness :
    (cNode.handle 0 7 cRead).2.2.countP Svc.isReadOkB = 1 ∧
    (cNode.handle 0 7 cRead).1.seen = cNode.seen :=
  ⟨(read_snapshot cNode 0 7 cRead rfl).2.1,
   (read_snapshot cNode 0 7 cRead rfl).2.2⟩

/-- C7: the seen set is monotone under every inbound message — no
operation removes an entry — and handling `ReadOk{values}` specifically
unions `values` into the seen set and produces no reply beyond the gossip
prefix. -/
theorem seen_monotone
    (n : Svc.BroadcastNode) (now ctr : Nat) (msg : Svc.Message Svc.Payload) :
    n.seen ⊆ (n.handle now ctr msg).1.seen ∧
    (∀ vs : Finset Nat, msg.body.payload = some (Svc.Payload.readOk vs) →
        (n.handle now ctr msg).1.seen = n.seen ∪ vs ∧
        (n.handle now ctr msg).2.2 = (n.gossip now).2) := by
  constructor
  · have h1 : (n.gossip now).1.seen ⊆ ((n.gossip now).1.dispatch ctr msg).1.seen :=
      Svc.dispatch_seen_subset (n.gossip now).1 ctr msg
    rw [Svc.handle_unfold]
    show n.seen ⊆ ((n.gossip now).1.dispatch ctr msg).1.seen
    exact Svc.gossip_fst_seen n now ▸ h1
  · intro vs hvs
    rw [Svc.handle_unfold, Svc.dispatch_readOk hvs]
    constructor
    · show (n.gossip now).1.seen ∪ vs = n.seen ∪ vs
      rw [Svc.gossip_fst_seen]
    · show (n.gossip now).2 ++ [] = (n.gossip now).2
      exact List.append_nil (n.gossip now).2

/-- C7 witness: a concrete node merging `ReadOk{values:{3}}`. -/
theorem seen_monotone_witness :
    cNode.seen ⊆ (cNode.handle 0 7 cReadOk).1.seen ∧
    (cNode.handle 0 7 cReadOk).1.seen = cNode.seen ∪ {3} ∧
    (cNode.handle 0 7 cReadOk).2.2 = (cNode.gossip 0).2 :=
  ⟨(seen_monotone cNode 0 7 cReadOk).1,
   ((seen_monotone cNode 0 7 cReadOk).2 {3} rfl).1,
   ((seen_monotone cNode 0 7 cReadOk).2 {3} rfl).2⟩

/-- C10: a node built by `from_init` starts with an empty neighbor set and
an empty seen set; after any sequence of non-`Topology` messages, handling
`Broadcast{v}` emits exactly the `BroadcastOk` ack — no forwards and no
gossip `Read`s, even when the gossip deadline has expired — and records
`v`. -/
theorem from_init_quiescent
    (now0 ctr0 now ctr v : Nat) (info : Svc.NodeInfo)
    (steps : List (Nat × Svc.Message Svc.Payload)) (msg : Svc.Message Svc.Payload)
    (hsteps : ∀ s ∈ steps, Svc.noTopologyB s.2 = true)
    (h : msg.body.payload = some (Svc.Payload.broadcast v)) :
    (Svc.BroadcastNode.from_init now0 info).topology = [] ∧
    (Svc.BroadcastNode.from_init now0 info).seen = ∅ ∧
    ((Svc.BroadcastNode.handleSeq (Svc.BroadcastNode.from_init now0 info) ctr0
        steps).1.handle now ctr msg).2.2 =
      [msg.into_reply ctr Svc.Payload.broadcastOk] ∧
    v ∈ ((Svc.BroadcastNode.handleSeq (Svc.BroadcastNode.from_init now0 info) ctr0
        steps).1.handle now ctr msg).1.seen := by
  have htop : (Svc.BroadcastNode.handleSeq (Svc.BroadcastNode.from_init now0 info)
      ctr0 steps).1.topology = [] :=
    (Svc.handleSeq_topology steps (Svc.BroadcastNode.from_init now0 info) ctr0 hsteps).trans rfl
  refine ⟨rfl, rfl, ?_, ?_⟩ <;>
    by_cases hv : v ∈ (Svc.BroadcastNode.handleSeq (Svc.BroadcastNode.from_init now0 info)
      ctr0 steps).1.seen
  · rw [Svc.handle_broadcast_seen h hv]
    show ((Svc.BroadcastNode.handleSeq (Svc.BroadcastNode.from_init now0 info) ctr0
        steps).1.gossip now).2 ++ [msg.into_reply ctr Svc.Payload.broadcastOk] =
      [msg.into_reply ctr Svc.Payload.broadcastOk]
    rw [Svc.gossip_snd_of_topology_nil htop]
    rfl
  · rw [Svc.handle_broadcast_not_seen h hv]
    show ((Svc.BroadcastNode.handleSeq (Svc.BroadcastNode.from_init now0 info) ctr0
        steps).1.gossip now).2 ++
        msg.into_reply ctr Svc.Payload.broadcastOk ::
          (Svc.BroadcastNode.handleSeq (Svc.BroadcastNode.from_init now0 info) ctr0
            steps).1.topology.map
            (fun nb => Svc.Message.new (Svc.BroadcastNode.handleSeq
              (Svc.BroadcastNode.from_init now0 info) ctr0 steps).1.id nb none
              (Svc.Payload.broadcast v)) =
      [msg.into_reply ctr Svc.Payload.broadcastOk]
    rw [Svc.gossip_snd_of_topology_nil htop, htop]
    rfl
  · rw [Svc.handle_broadcast_seen h hv]
    show v ∈ ((Svc.BroadcastNode.handleSeq (Svc.BroadcastNode.from_init now0 info)
        ctr0 steps).1.gossip now).1.seen
    rw [Svc.gossip_fst_seen]
    exact hv
  · rw [Svc.handle_broadcast_not_seen h hv]
    exact Finset.mem_insert_self v _

/-- C10 witness: a freshly initialized node that has handled one `Read`
acknowledges `Broadcast{5}` with nothing else on the wire and records 5,
at an instant past its gossip deadline. -/
theorem from_init_quiescent_witness :
    ((Svc.BroadcastNode.handleSeq
        (Svc.BroadcastNode.from_init 0 { id := "n1", nodes := ["n1", "n2"] }) 0
        [(0, cRead)]).1.handle 400 7 cBroadcast5).2.2 =
      [Svc.Message.into_reply cBroadcast5 7 Svc.Payload.broadcastOk] ∧
    5 ∈ ((Svc.BroadcastNode.handleSeq
        (Svc.BroadcastNode.from_init 0 { id := "n1", nodes := ["n1", "n2"] }) 0
        [(0, cRead)]).1.handle 400 7 cBroadcast5).1.seen :=
  ⟨(from_init_quiescent 0 0 400 7 5 { id := "n1", nodes := ["n1", "n2"] }
      [(0, cRead)] cBroadcast5 (by decide) rfl).2.2.1,
   (from_init_quiescent 0 0 400 7 5 { id := "n1", nodes := ["n1", "n2"] }
      [(0, cRead)] cBroadcast5 (by decide) rfl).2.2.2⟩
